import Mathlib

/-!
Shallow embedding of the background-task lifecycle controller of
`src/docling_gui.py` (classes `ConversionWorker` and `MarkdownConverterApp`).

Conventions of the embedding:
* Python strings become `String`; f-strings become concatenation.  Apostrophes
  inside string literals are written with the escape `\x27`; the non-ASCII
  glyphs of the source file (its emoji are stored mojibake-encoded) are kept
  exactly as the bytes of the file decode.
* The cooperative cancellation flag `_is_running` is only ever moved
  from `True` to `False` (by `stop()`); `run` reads it at several program
  points.  We model the sequence of reads as a function `flags : Nat → Bool`
  giving the value returned by the n-th read that the execution performs,
  in program order: read 0 is the check at the top of `run`, read 1 the check
  after the first sleep, read 2 the check before `loader.load()`, read 3 the
  check after `loader.load()`; a read performed inside an `except` handler
  gets the next unused index of the path that reached it.
* Python exceptions are modelled by a class tag (enough of the class hierarchy
  to decide which `except` clause catches the exception, and its `__name__`)
  together with the message `str(e)`.
* Signal emission (`emit_signal`) is modelled by returning the list of
  emitted signals; `run` is a function from its inputs to that list.
* Qt widget state touched by the controller is modelled by explicit record
  fields (status label text, markdown text, enabled flags, notification list
  for `QMessageBox.warning` popups, progress-dialog existence, and the
  worker/thread references as allocation counters).
-/

/-- Char-list version of `startswith`: `leadsWith pat l` is true when `pat`
is an initial segment of `l`. -/
def leadsWith : List Char → List Char → Bool
  | [], _ => true
  | _ :: _, [] => false
  | a :: as, b :: bs => a == b && leadsWith as bs

/-- Substring test on char lists: true when `pat` occurs contiguously in the
second argument. -/
def hasSub (pat : List Char) : List Char → Bool
  | [] => leadsWith pat []
  | c :: t => leadsWith pat (c :: t) || hasSub pat t

/-- Python `pat in s` on strings. -/
def strContains (s pat : String) : Bool := hasSub pat.data s.data

/-- Python `s.startswith(pat)`. -/
def strStartsWith (s pat : String) : Bool := leadsWith pat.data s.data

/-- Python `s.lower()` (ASCII case folding, which is all the source needs). -/
def lowerStr (s : String) : String := ⟨s.data.map Char.toLower⟩

/-- Python `s.strip()` (whitespace trim on both ends). -/
def trimStr (s : String) : String :=
  ⟨((s.data.dropWhile Char.isWhitespace).reverse.dropWhile Char.isWhitespace).reverse⟩

/-- Python `os.path.basename` for forward-slash paths. -/
def basename (p : String) : String := List.getLastD (p.splitOn "/") ""

/-- Tags for the Python exception classes that the `except` clauses of
`ConversionWorker.run` distinguish, plus representative subclasses.
`otherExc n` stands for any exception class with `__name__ = n` that is caught
only by the final `except Exception` clause. -/
inductive PyExcClass where
  | RuntimeError
  | OSError
  | FileNotFoundError
  | PermissionError
  | ImportError
  | ModuleNotFoundError
  | otherExc (name : String)
deriving DecidableEq

/-- Python `type(e).__name__`. -/
def className : PyExcClass → String
  | .RuntimeError => "RuntimeError"
  | .OSError => "OSError"
  | .FileNotFoundError => "FileNotFoundError"
  | .PermissionError => "PermissionError"
  | .ImportError => "ImportError"
  | .ModuleNotFoundError => "ModuleNotFoundError"
  | .otherExc n => n

/-- Does `except RuntimeError` catch this class? -/
def catchesRuntimeError : PyExcClass → Bool
  | .RuntimeError => true
  | _ => false

/-- Does `except OSError` catch this class (OSError and its subclasses)? -/
def catchesOSError : PyExcClass → Bool
  | .OSError => true
  | .FileNotFoundError => true
  | .PermissionError => true
  | _ => false

/-- Does `except ImportError` catch this class? -/
def catchesImportError : PyExcClass → Bool
  | .ImportError => true
  | .ModuleNotFoundError => true
  | _ => false

/-- A raised Python exception: its class and `str(e)`. -/
structure PyExc where
  cls : PyExcClass
  msg : String
deriving DecidableEq

/-- A langchain `Document` as the worker and controller see it: the
`page_content` attribute, `none` when the attribute is absent (the
controller guards with `hasattr`), otherwise the string (Python truthiness
of the string is emptiness). -/
structure Document where
  page_content : Option String
deriving DecidableEq

/-- A signal emitted by `ConversionWorker`: `conversion_complete(docs, path)`
or `conversion_error(kind, message, path)`. -/
inductive Signal where
  | complete (docs : List Document) (path : String)
  | error (kind msg path : String)
deriving DecidableEq

/-- The `"cancelled" in str(e).lower()` test of the `except RuntimeError`
handler. -/
def containsCancelled (s : String) : Bool := strContains (lowerStr s) "cancelled"

/-- Body of the `try` block of `ConversionWorker.run` after the initial
not-running check: either the list of documents returned by `loader.load()`,
or the exception that was raised, paired with the index of the next flag
read (the read an `except` handler would perform).

Inputs: `initExc` is `some e` when the loader constructor
`DoclingLoaderClass(file_path=..., export_type="markdown")` raises `e`,
`loadRes` is the outcome of `loader.load()` (only reached when the
constructor returned). -/
def ConversionWorker.tryBody (flags : Nat → Bool) (initExc : Option PyExc)
    (loadRes : Except PyExc (List Document)) : Except (PyExc × Nat) (List Document) :=
  if !(flags 1) then
    Except.error (⟨PyExcClass.RuntimeError, "Operation cancelled during init."⟩, 2)
  else
    match initExc with
    | some e => Except.error (e, 2)
    | none =>
      if !(flags 2) then
        Except.error (⟨PyExcClass.RuntimeError, "Operation cancelled before load."⟩, 3)
      else
        match loadRes with
        | Except.error e => Except.error (e, 3)
        | Except.ok docs =>
          if !(flags 3) then
            Except.error (⟨PyExcClass.RuntimeError, "Operation cancelled during load."⟩, 4)
          else
            Except.ok docs

/-- The `except` clauses of `ConversionWorker.run`, in source order.  `idx` is
the index of the flag read `if not self._is_running` that the OSError /
ImportError / generic handlers perform; the RuntimeError handler does not
read the flag, it matches on the message. -/
def ConversionWorker.handleExc (flags : Nat → Bool) (e : PyExc) (idx : Nat)
    (file_path : String) : Signal :=
  if catchesRuntimeError e.cls then
    if containsCancelled e.msg then
      Signal.error "Cancelled" "Operation was cancelled by user." file_path
    else
      Signal.error (className e.cls) e.msg file_path
  else if catchesOSError e.cls then
    if !(flags idx) then
      Signal.error "Cancelled" "Operation cancelled after OS error." file_path
    else
      Signal.error (className e.cls) e.msg file_path
  else if catchesImportError e.cls then
    if !(flags idx) then
      Signal.error "Cancelled" "Operation cancelled after Import error." file_path
    else
      Signal.error (className e.cls) e.msg file_path
  else
    if !(flags idx) then
      Signal.error "Cancelled" ("Operation cancelled after " ++ className e.cls ++ ".") file_path
    else
      Signal.error (className e.cls) e.msg file_path

/-- `ConversionWorker.run`, returning the list of signals it emits (via
`emit_signal`, in order). -/
def ConversionWorker.run (flags : Nat → Bool) (initExc : Option PyExc)
    (loadRes : Except PyExc (List Document)) (file_path : String) : List Signal :=
  if !(flags 0) then
    [Signal.error "Cancelled" "Operation cancelled before starting." file_path]
  else
    match ConversionWorker.tryBody flags initExc loadRes with
    | Except.ok docs => [Signal.complete docs file_path]
    | Except.error p => [ConversionWorker.handleExc flags p.1 p.2 file_path]

/-- `ConversionWorker.stop`: sets `_is_running` to `False` and emits nothing
on the completion channel.  The input is the current flag value; the output
is the new flag value and the (empty) list of signals emitted. -/
def ConversionWorker.stop (_isRunningFlag : Bool) : Bool × List Signal :=
  (false, [])

/-- Observable state of `MarkdownConverterApp` (the controller), restricted to
the fields the lifecycle logic reads or writes.  Widget references become the
data the handlers manipulate: label texts, enabled flags, the existence of the
progress dialog, and the worker/thread references as allocation ids drawn from
`tasksCreated`.  `notifications` collects the messages passed to
`QMessageBox.warning` by `show_error`; `quitRequests` counts
`conversion_thread.quit()` calls. -/
structure MarkdownConverterApp where
  DoclingLoaderClass : Bool
  is_processing : Bool
  last_processed_file : Option String
  original_status_text : String
  ready_status_text : String
  statusText : String
  markdownText : String
  placeholderText : String
  openEnabled : Bool
  dropEnabled : Bool
  copyEnabled : Bool
  saveEnabled : Bool
  progress_dialog : Bool
  conversion_worker : Option Nat
  conversion_thread : Option Nat
  tasksCreated : Nat
  notifications : List String
  windowEnabled : Bool
  centralEnabled : Bool
  quitRequests : Nat
  isWindows : Bool
  loginName : String
deriving DecidableEq

/-- The file-system facts `process_file` consults: `os.path.exists` and
`os.access(path, os.R_OK)`. -/
structure FS where
  pathExists : String → Bool
  readable : String → Bool

/-- `show_error`: queue a warning box when the window and central widget are
enabled, otherwise only log. -/
def MarkdownConverterApp.show_error (c : MarkdownConverterApp) (message : String) :
    MarkdownConverterApp :=
  if c.windowEnabled && c.centralEnabled then
    { c with notifications := c.notifications ++ [message] }
  else c

/-- `update_action_buttons_state`: copy/save enabled iff there is non-blank
text, not processing, and initialized. -/
def MarkdownConverterApp.update_action_buttons_state (c : MarkdownConverterApp) :
    MarkdownConverterApp :=
  let can := (trimStr c.markdownText != "") && !c.is_processing && c.DoclingLoaderClass
  { c with copyEnabled := can, saveEnabled := can }

/-- `markdown_output.setText` / `markdown_output.clear()`: the `textChanged`
signal is connected to `update_action_buttons_state`, so setting the text
re-runs it. -/
def MarkdownConverterApp.setMarkdownText (c : MarkdownConverterApp) (t : String) :
    MarkdownConverterApp :=
  MarkdownConverterApp.update_action_buttons_state { c with markdownText := t }

/-- `set_ui_enabled`: enables or disables the open button and the drop label. -/
def MarkdownConverterApp.set_ui_enabled (c : MarkdownConverterApp) (enabled : Bool) :
    MarkdownConverterApp :=
  { c with openEnabled := enabled, dropEnabled := enabled }

/-- `set_status` (the style-sheet changes are presentation-only and omitted;
the temporary-revert timer fires later and is outside a single event
handling step, so `temporary` only affects the baseline update here, exactly
as in the source). -/
def MarkdownConverterApp.set_status (c : MarkdownConverterApp) (message : String)
    (is_success isProcessingMsg temporary : Bool) : MarkdownConverterApp :=
  let isFinal := is_success || strContains message "Ready" ||
    strContains message "Select a file" || strContains message "Cancelled" ||
    strContains (lowerStr message) "failed"
  let c :=
    if !isProcessingMsg && !temporary && isFinal then
      { c with original_status_text := message }
    else c
  { c with statusText := message }

/-- `reset_status`: store the baseline and re-display it (the
`QTimer.singleShot(0, ...)` indirection delivers on the same interactive
context before the next user event, so it is modelled as immediate). -/
def MarkdownConverterApp.reset_status (c : MarkdownConverterApp)
    (base_message : Option String) : MarkdownConverterApp :=
  let m := match base_message with
    | none => if c.DoclingLoaderClass then c.ready_status_text else "Initializing..."
    | some m => m
  let c := { c with original_status_text := m }
  MarkdownConverterApp.set_status c c.original_status_text false false false

/-- `self.conversion_thread.quit()` guarded by `if self.conversion_thread:`. -/
def MarkdownConverterApp.quitConversionThread (c : MarkdownConverterApp) :
    MarkdownConverterApp :=
  if c.conversion_thread.isSome then { c with quitRequests := c.quitRequests + 1 } else c

/-- The list comprehension of `handle_conversion_complete`: keep the
`page_content` of each document that has the attribute and whose content is a
non-empty string. -/
def pageContents (docs : List Document) : List String :=
  docs.filterMap (fun d =>
    match d.page_content with
    | some s => if s != "" then some s else none
    | none => none)

/-- `handle_conversion_complete(docs, original_file_path)`. -/
def MarkdownConverterApp.handle_conversion_complete (c : MarkdownConverterApp)
    (docs : List Document) (original_file_path : String) : MarkdownConverterApp :=
  if (some original_file_path != c.last_processed_file) || !c.is_processing then
    MarkdownConverterApp.quitConversionThread c
  else
    let base_name := basename original_file_path
    let c :=
      if docs != ([] : List Document) then
        let page_contents := pageContents docs
        if page_contents != ([] : List String) then
          let c := MarkdownConverterApp.setMarkdownText c
            (String.intercalate "\n\n" page_contents)
          MarkdownConverterApp.set_status c
            ("âœ… Successfully converted \x27" ++ base_name ++ "\x27!") true false false
        else
          let c := { c with placeholderText :=
            "Conversion of \x27" ++ base_name ++ "\x27 resulted in empty content." }
          let c := MarkdownConverterApp.show_error c
            ("Conversion resulted in empty content for \x27" ++ base_name ++ "\x27.")
          MarkdownConverterApp.reset_status c (some "Conversion failed: Empty result.")
      else
        let c := { c with placeholderText :=
          "No processable documents found in \x27" ++ base_name ++ "\x27." }
        let c := MarkdownConverterApp.show_error c
          ("Docling returned no processable documents for \x27" ++ base_name ++ "\x27.")
        MarkdownConverterApp.reset_status c (some "Conversion failed: No documents.")
    MarkdownConverterApp.quitConversionThread c

/-- Branch selection of `handle_conversion_error`: the `if/elif` chain
compares `error_type` against the exact strings. -/
inductive ErrBranch where
  | cancelledB
  | osB
  | importB
  | genericB
deriving DecidableEq

/-- Dispatch of `handle_conversion_error` on the `error_type` string. -/
def errorBranch (error_type : String) : ErrBranch :=
  if error_type == "Cancelled" then ErrBranch.cancelledB
  else if error_type == "OSError" then ErrBranch.osB
  else if error_type == "ImportError" then ErrBranch.importB
  else ErrBranch.genericB

/-- User message of the `OSError` branch (Windows privilege-error special
case included). -/
def osErrorUserMsg (c : MarkdownConverterApp) (base_name error_message_str : String) :
    String :=
  if c.isWindows && strContains error_message_str "1314" then
    "Failed to convert \x27" ++ base_name ++ "\x27." ++
      "\n\nPrivilege Error (WinError 1314).\n\nTroubleshooting:\n- Try running as Administrator.\n- Check permissions for Hugging Face cache:\n  C:\\Users\\" ++
      c.loginName ++ "\\.cache\\huggingface"
  else
    "Failed to convert \x27" ++ base_name ++ "\x27." ++
      "\n\nOS Error: " ++ error_message_str ++
      "\n\nCheck file permissions and if the file is open elsewhere."

/-- `handle_conversion_error(error_type, error_message_str, original_file_path)`. -/
def MarkdownConverterApp.handle_conversion_error (c : MarkdownConverterApp)
    (error_type error_message_str original_file_path : String) : MarkdownConverterApp :=
  if (some original_file_path != c.last_processed_file) || !c.is_processing then
    MarkdownConverterApp.quitConversionThread c
  else
    let base_name := basename original_file_path
    let c := MarkdownConverterApp.setMarkdownText c ""
    let msgs :=
      match errorBranch error_type with
      | ErrBranch.cancelledB =>
        ("Conversion for \x27" ++ base_name ++ "\x27 was cancelled.",
         "ðŸ¤·â€â™€ï¸ Conversion Cancelled.",
         "Conversion was cancelled.")
      | ErrBranch.osB =>
        (osErrorUserMsg c base_name error_message_str,
         "âŒ Conversion failed (OS Error).",
         "Conversion failed (OS Error). See message.")
      | ErrBranch.importB =>
        ("Failed to convert \x27" ++ base_name ++
           "\x27. A required dependency might be missing.\n\nDetails: " ++ error_message_str,
         "âŒ Conversion failed (Missing Dependency).",
         "Conversion failed (Missing Dependency). See message.")
      | ErrBranch.genericB =>
        ("Failed to convert \x27" ++ base_name ++ "\x27." ++
           "\n\nUnexpected Error: " ++ error_type ++ "\n\nDetails: " ++ error_message_str ++
           "\n\nSee console for detailed traceback.",
         "âŒ Conversion failed (" ++ error_type ++ ").",
         "Conversion failed (" ++ error_type ++ "). See message.")
    let c := { c with placeholderText := msgs.2.2 }
    let c := if error_type != "Cancelled" then MarkdownConverterApp.show_error c msgs.1 else c
    let c := MarkdownConverterApp.reset_status c (some msgs.2.1)
    MarkdownConverterApp.quitConversionThread c

/-- `handle_conversion_finished`: close the progress dialog, schedule worker
and thread deletion (references cleared, one more `quit()` on the thread);
the rest of the UI update is deferred to `_finalize_conversion_ui`. -/
def MarkdownConverterApp.handle_conversion_finished (c : MarkdownConverterApp) :
    MarkdownConverterApp :=
  let c := if c.progress_dialog then { c with progress_dialog := false } else c
  let c := if c.conversion_worker.isSome then { c with conversion_worker := none } else c
  if c.conversion_thread.isSome then
    { c with quitRequests := c.quitRequests + 1, conversion_thread := none }
  else c

/-- The status-label check of `_finalize_conversion_ui`. -/
def statusShowsProcessing (s : String) : Bool :=
  strStartsWith s "â³" || strContains s "Preparing" ||
    strContains s "Initializing" || strContains s "Converting"

/-- `_finalize_conversion_ui`: deferred finalization after the conversion
thread has finished. -/
def MarkdownConverterApp.finalize_conversion_ui (c : MarkdownConverterApp) :
    MarkdownConverterApp :=
  let c := { c with is_processing := false }
  let c := MarkdownConverterApp.set_ui_enabled c true
  let c :=
    if trimStr c.markdownText == "" then
      { c with placeholderText := "Converted Markdown will appear here..." }
    else c
  let c := MarkdownConverterApp.update_action_buttons_state c
  if statusShowsProcessing c.statusText then
    MarkdownConverterApp.reset_status c none
  else c

/-- The part of `process_file` after all pre-flight checks have passed:
enter the processing state, clear the output, show the progress dialog and
spawn a fresh `ConversionWorker`/`QThread` pair (allocation ids drawn from
`tasksCreated`). -/
def MarkdownConverterApp.startTask (c : MarkdownConverterApp) (file_path : String) :
    MarkdownConverterApp :=
  let c := { c with is_processing := true, last_processed_file := some file_path }
  let base_name := basename file_path
  let c := MarkdownConverterApp.set_status c
    ("â³ Preparing conversion for \x27" ++ base_name ++ "\x27...") false true false
  let c := MarkdownConverterApp.setMarkdownText c ""
  let c := { c with placeholderText :=
    "Starting conversion for \x27" ++ base_name ++ "\x27..." }
  let c := MarkdownConverterApp.update_action_buttons_state c
  let c := MarkdownConverterApp.set_ui_enabled c false
  let c := if c.progress_dialog then { c with progress_dialog := false } else c
  let c := { c with progress_dialog := true }
  let c :=
    if c.conversion_thread.isSome then
      { c with quitRequests := c.quitRequests + 1,
               conversion_thread := none, conversion_worker := none }
    else c
  { c with conversion_thread := some c.tasksCreated,
           conversion_worker := some c.tasksCreated,
           tasksCreated := c.tasksCreated + 1 }

/-- `process_file(file_path)`: pre-flight checks, then start the task. -/
def MarkdownConverterApp.process_file (c : MarkdownConverterApp) (fs : FS)
    (file_path : String) : MarkdownConverterApp :=
  if !c.DoclingLoaderClass then
    MarkdownConverterApp.show_error c "Application is not fully initialized."
  else if c.is_processing then
    MarkdownConverterApp.show_error c "Please wait for the current conversion to complete."
  else if !(fs.pathExists file_path) then
    MarkdownConverterApp.reset_status
      (MarkdownConverterApp.show_error c ("File not found: " ++ file_path))
      (some "File access error.")
  else if !(fs.readable file_path) then
    MarkdownConverterApp.reset_status
      (MarkdownConverterApp.show_error c
        ("Permission denied: Cannot read file\n" ++ file_path))
      (some "File permission error.")
  else
    MarkdownConverterApp.startTask c file_path

/-- Delivery of a terminal worker signal to the controller: the
`conversion_complete` signal is connected to `handle_conversion_complete` and
`conversion_error` to `handle_conversion_error`. -/
def MarkdownConverterApp.applyTerminal (c : MarkdownConverterApp) (sig : Signal) :
    MarkdownConverterApp :=
  match sig with
  | Signal.complete docs path => MarkdownConverterApp.handle_conversion_complete c docs path
  | Signal.error kind msg path => MarkdownConverterApp.handle_conversion_error c kind msg path

/-- Helper: when the initial not-running check fails, `run` emits the
before-starting cancellation error. -/
theorem run_flag0_false {flags : Nat → Bool} (initExc : Option PyExc)
    (loadRes : Except PyExc (List Document)) (file_path : String)
    (h0 : flags 0 = false) :
    ConversionWorker.run flags initExc loadRes file_path
      = [Signal.error "Cancelled" "Operation cancelled before starting." file_path] := by
  unfold ConversionWorker.run
  rw [h0]
  rfl

/-- Helper: a RuntimeError whose message contains "cancelled" is reported as
the user-cancellation error by the `except RuntimeError` clause. -/
theorem handleExc_rte_cancelled (flags : Nat → Bool) (msg : String) (idx : Nat)
    (file_path : String) (h : containsCancelled msg = true) :
    ConversionWorker.handleExc flags ⟨PyExcClass.RuntimeError, msg⟩ idx file_path
      = Signal.error "Cancelled" "Operation was cancelled by user." file_path := by
  unfold ConversionWorker.handleExc
  simp [catchesRuntimeError, h]

/-- C5: every started conversion task delivers exactly one terminal signal on
every control path of `ConversionWorker.run` (normal completion and every
exception handler deliver exactly one signal, never zero, never more), and
`stop()` (a cancel arriving at any time, including after completion) emits
nothing on the completion channel. -/
theorem run_emits_exactly_one_signal (flags : Nat → Bool) (initExc : Option PyExc)
    (loadRes : Except PyExc (List Document)) (file_path : String) (b : Bool) :
    (ConversionWorker.run flags initExc loadRes file_path).length = 1 ∧
    (ConversionWorker.stop b).2 = [] := by
  refine ⟨?_, rfl⟩
  unfold ConversionWorker.run
  split
  · rfl
  · split <;> rfl

/-- C2: whenever the cancellation flag reads `False` at a checkpoint that
executes before `loader.load()` returns (the check at the top of `run`, the
check after the first sleep, or — when the loader constructor succeeded — the
check just before `loader.load()`), `run` emits a `conversion_error` signal
with kind "Cancelled" and emits nothing else; in particular it never emits
`conversion_complete`. -/
theorem cancel_before_load_yields_cancelled (flags : Nat → Bool) (initExc : Option PyExc)
    (loadRes : Except PyExc (List Document)) (file_path : String)
    (h : flags 0 = false ∨ flags 1 = false ∨ (initExc = none ∧ flags 2 = false)) :
    ∃ m, ConversionWorker.run flags initExc loadRes file_path
      = [Signal.error "Cancelled" m file_path] := by
  rcases h with h0 | h1 | ⟨hi, h2⟩
  · exact ⟨_, run_flag0_false initExc loadRes file_path h0⟩
  · cases h0 : flags 0 with
    | false => exact ⟨_, run_flag0_false initExc loadRes file_path h0⟩
    | true =>
      refine ⟨"Operation was cancelled by user.", ?_⟩
      have hrun : ConversionWorker.run flags initExc loadRes file_path
          = [ConversionWorker.handleExc flags
              ⟨PyExcClass.RuntimeError, "Operation cancelled during init."⟩ 2 file_path] := by
        unfold ConversionWorker.run ConversionWorker.tryBody
        rw [h0, h1]
        rfl
      rw [hrun, handleExc_rte_cancelled flags _ 2 file_path (by decide)]
  · cases h0 : flags 0 with
    | false => exact ⟨_, run_flag0_false initExc loadRes file_path h0⟩
    | true =>
      cases h1 : flags 1 with
      | false =>
        refine ⟨"Operation was cancelled by user.", ?_⟩
        have hrun : ConversionWorker.run flags initExc loadRes file_path
            = [ConversionWorker.handleExc flags
                ⟨PyExcClass.RuntimeError, "Operation cancelled during init."⟩ 2 file_path] := by
          unfold ConversionWorker.run ConversionWorker.tryBody
          rw [h0, h1]
          rfl
        rw [hrun, handleExc_rte_cancelled flags _ 2 file_path (by decide)]
      | true =>
        refine ⟨"Operation was cancelled by user.", ?_⟩
        have hrun : ConversionWorker.run flags initExc loadRes file_path
            = [ConversionWorker.handleExc flags
                ⟨PyExcClass.RuntimeError, "Operation cancelled before load."⟩ 3 file_path] := by
          unfold ConversionWorker.run ConversionWorker.tryBody
          rw [h0, h1, hi, h2]
          rfl
        rw [hrun, handleExc_rte_cancelled flags _ 3 file_path (by decide)]

/-- C2 witness: a concrete run whose flag is already cleared at the first
checkpoint reports Cancelled. -/
theorem cancel_before_load_yields_cancelled_witness :
    ∃ m, ConversionWorker.run (fun _ => false) none (Except.ok [⟨some "text"⟩]) "report.pdf"
      = [Signal.error "Cancelled" m "report.pdf"] :=
  cancel_before_load_yields_cancelled (fun _ => false) none (Except.ok [⟨some "text"⟩])
    "report.pdf" (Or.inl rfl)

/-- Flag-read sequence of an execution in which cancellation is requested
while `loader.load()` is in flight: the three checkpoint reads before and
during startup return `True`, every read from index 3 on returns `False`. -/
def cancelDuringLoadFlags : Nat → Bool := fun n => decide (n < 3)

/-- C4 counterexample: cancellation is requested during the failing step (the
flag reads `False` at every read after the pre-load checkpoint), the step
raises `RuntimeError("boom")`, and the reported outcome kind is
"RuntimeError", not "Cancelled" — the `except RuntimeError` clause classifies
by message substring only and never consults the cancellation flag. -/
theorem runtimeError_ignores_cancellation_flag :
    cancelDuringLoadFlags 3 = false ∧
    ConversionWorker.run cancelDuringLoadFlags none
        (Except.error ⟨PyExcClass.RuntimeError, "boom"⟩) "doc.pdf" =
      [Signal.error "RuntimeError" "boom" "doc.pdf"] := ⟨rfl, rfl⟩

/-- C4 amended: if cancellation is observed (the flag reads `False` after the
failing step) then "Cancelled" takes precedence over the error kind for
every exception class except `RuntimeError`: the OSError, ImportError and
generic handlers all consult the flag; a `RuntimeError` is reported as
"Cancelled" exactly when its message contains "cancelled" (case-insensitive),
independent of the flag. -/
theorem cancelled_takes_precedence_amended (flags : Nat → Bool) (e : PyExc)
    (file_path : String) (h0 : flags 0 = true) (h1 : flags 1 = true)
    (h2 : flags 2 = true) (h3 : flags 3 = false)
    (hr : catchesRuntimeError e.cls = false) :
    (∃ m, ConversionWorker.run flags none (Except.error e) file_path
        = [Signal.error "Cancelled" m file_path]) ∧
    (∀ msg, containsCancelled msg = true →
      ConversionWorker.run flags none (Except.error ⟨PyExcClass.RuntimeError, msg⟩) file_path
        = [Signal.error "Cancelled" "Operation was cancelled by user." file_path]) := by
  constructor
  · have hrun : ConversionWorker.run flags none (Except.error e) file_path
        = [ConversionWorker.handleExc flags e 3 file_path] := by
      unfold ConversionWorker.run ConversionWorker.tryBody
      rw [h0, h1, h2]
      rfl
    rw [hrun]
    unfold ConversionWorker.handleExc
    cases hos : catchesOSError e.cls <;> cases him : catchesImportError e.cls <;>
      simp [hr, hos, him, h3]
  · intro msg hm
    have hrun : ConversionWorker.run flags none
        (Except.error ⟨PyExcClass.RuntimeError, msg⟩) file_path
        = [ConversionWorker.handleExc flags ⟨PyExcClass.RuntimeError, msg⟩ 3 file_path] := by
      unfold ConversionWorker.run ConversionWorker.tryBody
      rw [h0, h1, h2]
      rfl
    rw [hrun, handleExc_rte_cancelled flags msg 3 file_path hm]

/-- C4 amended witness: an OSError raised while cancellation was requested
during `loader.load()` is reported as "Cancelled"; so is a RuntimeError whose
message contains "cancelled". -/
theorem cancelled_takes_precedence_amended_witness :
    (∃ m, ConversionWorker.run cancelDuringLoadFlags none
        (Except.error ⟨PyExcClass.OSError, "disk detached"⟩) "doc.pdf"
        = [Signal.error "Cancelled" m "doc.pdf"]) ∧
    (∀ msg, containsCancelled msg = true →
      ConversionWorker.run cancelDuringLoadFlags none
          (Except.error ⟨PyExcClass.RuntimeError, msg⟩) "doc.pdf"
        = [Signal.error "Cancelled" "Operation was cancelled by user." "doc.pdf"]) :=
  cancelled_takes_precedence_amended cancelDuringLoadFlags
    ⟨PyExcClass.OSError, "disk detached"⟩ "doc.pdf" rfl rfl rfl rfl rfl

/-- C10 counterexample: the worker does not report the concrete class name
for every exception raised inside the conversion call.  A RuntimeError whose
message merely contains the word "cancelled" — raised while no cancellation
was ever requested (every flag read returns True) — is reported with kind
"Cancelled" instead of its class name "RuntimeError": the
`except RuntimeError` clause classifies by message substring, never by
`type(e).__name__`. -/
theorem runtimeError_cancelled_message_not_class_name :
    ConversionWorker.run (fun _ => true) none
        (Except.error ⟨PyExcClass.RuntimeError, "download cancelled by peer"⟩) "doc.pdf"
      = [Signal.error "Cancelled" "Operation was cancelled by user." "doc.pdf"] ∧
    className PyExcClass.RuntimeError = "RuntimeError" ∧
    ("Cancelled" : String) ≠ "RuntimeError" := ⟨rfl, rfl, by decide⟩

/-- C10 amended: for every exception raised inside the conversion call while
the task is not cancelled, the worker reports the concrete class name of the
exception (`type(e).__name__`) as the error kind, except for a RuntimeError
whose lower-cased message contains "cancelled", which is reported as
"Cancelled"; in particular the OSError subclass `FileNotFoundError` is caught
by the `except OSError` clause yet reported with kind "FileNotFoundError",
and the dispatch of the controller — which compares only against the exact
string "OSError" — routes that kind to the generic unexpected-error branch,
not the OS-error branch. -/
theorem exception_kind_is_class_name_amended (ec : PyExcClass) (m file_path : String)
    (h : catchesRuntimeError ec = false ∨ containsCancelled m = false) :
    ConversionWorker.run (fun _ => true) none (Except.error ⟨ec, m⟩) file_path
      = [Signal.error (className ec) m file_path] ∧
    catchesOSError PyExcClass.FileNotFoundError = true ∧
    className PyExcClass.FileNotFoundError = "FileNotFoundError" ∧
    errorBranch "FileNotFoundError" = ErrBranch.genericB ∧
    errorBranch "OSError" = ErrBranch.osB := by
  refine ⟨?_, rfl, rfl, by decide, by decide⟩
  have hrun : ConversionWorker.run (fun _ => true) none (Except.error ⟨ec, m⟩) file_path
      = [ConversionWorker.handleExc (fun _ => true) ⟨ec, m⟩ 3 file_path] := rfl
  rw [hrun]
  unfold ConversionWorker.handleExc
  rcases h with hr | hm
  · cases hos : catchesOSError ec <;> cases him : catchesImportError ec <;>
      simp [hr, hos, him]
  · cases hr : catchesRuntimeError ec with
    | false =>
      cases hos : catchesOSError ec <;> cases him : catchesImportError ec <;>
        simp [hr, hos, him]
    | true => simp [hr, hm]

/-- C10 amended witness: a `FileNotFoundError` raised by `loader.load()` is
reported with kind "FileNotFoundError" and dispatched to the generic branch. -/
theorem exception_kind_is_class_name_amended_witness :
    ConversionWorker.run (fun _ => true) none
        (Except.error ⟨PyExcClass.FileNotFoundError, "no such file"⟩) "a.pdf"
      = [Signal.error "FileNotFoundError" "no such file" "a.pdf"] ∧
    catchesOSError PyExcClass.FileNotFoundError = true ∧
    className PyExcClass.FileNotFoundError = "FileNotFoundError" ∧
    errorBranch "FileNotFoundError" = ErrBranch.genericB ∧
    errorBranch "OSError" = ErrBranch.osB :=
  exception_kind_is_class_name_amended PyExcClass.FileNotFoundError "no such file" "a.pdf"
    (Or.inl rfl)

/-- Closed form of `set_status`: only the baseline and the displayed status
text change. -/
theorem set_status_eq (c : MarkdownConverterApp) (m : String) (a b t : Bool) :
    MarkdownConverterApp.set_status c m a b t =
      { c with
        original_status_text :=
          if (!b && !t && (a || strContains m "Ready" || strContains m "Select a file" ||
              strContains m "Cancelled" || strContains (lowerStr m) "failed")) then m
          else c.original_status_text,
        statusText := m } := by
  have h1 : MarkdownConverterApp.set_status c m a b t =
      { (if (!b && !t && (a || strContains m "Ready" || strContains m "Select a file" ||
            strContains m "Cancelled" || strContains (lowerStr m) "failed")) then
          { c with original_status_text := m }
        else c) with statusText := m } := rfl
  rw [h1]
  split <;> rename_i h <;> simp [h]

/-- Closed form of `reset_status` with an explicit baseline: both the baseline
and the displayed status become that message, nothing else changes. -/
theorem reset_status_some_eq (c : MarkdownConverterApp) (m : String) :
    MarkdownConverterApp.reset_status c (some m) =
      { c with original_status_text := m, statusText := m } := by
  have h1 : MarkdownConverterApp.reset_status c (some m)
      = MarkdownConverterApp.set_status { c with original_status_text := m } m
          false false false := rfl
  rw [h1, set_status_eq]
  split <;> rfl

/-- Closed form of `show_error` while the window and central widget are
enabled. -/
theorem show_error_enabled_eq (c : MarkdownConverterApp) (m : String)
    (hw : c.windowEnabled = true) (hc : c.centralEnabled = true) :
    MarkdownConverterApp.show_error c m =
      { c with notifications := c.notifications ++ [m] } := by
  unfold MarkdownConverterApp.show_error
  rw [hw, hc]
  rfl

/-- Closed form of `quitConversionThread`: only the quit counter can change. -/
theorem quitConversionThread_eq (c : MarkdownConverterApp) :
    MarkdownConverterApp.quitConversionThread c =
      { c with quitRequests :=
          if c.conversion_thread.isSome then c.quitRequests + 1 else c.quitRequests } := by
  unfold MarkdownConverterApp.quitConversionThread
  by_cases h : c.conversion_thread.isSome = true
  · rw [if_pos h, if_pos h]
  · rw [if_neg h, if_neg h]

/-- Closed form of `reset_status` with the default baseline. -/
theorem reset_status_none_eq (c : MarkdownConverterApp) :
    MarkdownConverterApp.reset_status c none =
      { c with
        original_status_text :=
          if c.DoclingLoaderClass then c.ready_status_text else "Initializing...",
        statusText :=
          if c.DoclingLoaderClass then c.ready_status_text else "Initializing..." } := by
  have h1 : MarkdownConverterApp.reset_status c none
      = MarkdownConverterApp.set_status
          { c with original_status_text :=
              if c.DoclingLoaderClass then c.ready_status_text else "Initializing..." }
          (if c.DoclingLoaderClass then c.ready_status_text else "Initializing...")
          false false false := rfl
  rw [h1, set_status_eq]
  simp

/-- Fields of the controller state after `startTask` (the tail of
`process_file` once all pre-flight checks passed). -/
theorem startTask_fields (c : MarkdownConverterApp) (p : String) :
    (MarkdownConverterApp.startTask c p).is_processing = true ∧
    (MarkdownConverterApp.startTask c p).last_processed_file = some p ∧
    (MarkdownConverterApp.startTask c p).markdownText = "" ∧
    (MarkdownConverterApp.startTask c p).windowEnabled = c.windowEnabled ∧
    (MarkdownConverterApp.startTask c p).centralEnabled = c.centralEnabled ∧
    (MarkdownConverterApp.startTask c p).notifications = c.notifications ∧
    (MarkdownConverterApp.startTask c p).conversion_thread = some c.tasksCreated ∧
    (MarkdownConverterApp.startTask c p).conversion_worker = some c.tasksCreated ∧
    (MarkdownConverterApp.startTask c p).tasksCreated = c.tasksCreated + 1 := by
  unfold MarkdownConverterApp.startTask MarkdownConverterApp.set_status
    MarkdownConverterApp.setMarkdownText MarkdownConverterApp.update_action_buttons_state
    MarkdownConverterApp.set_ui_enabled
  by_cases h1 : c.progress_dialog = true <;> by_cases h2 : c.conversion_thread.isSome = true <;>
    simp [h1, h2]

/-- `handle_conversion_finished` only closes the dialog and drops the worker
and thread references: text, notifications and the processing flag are
untouched. -/
theorem finished_preserves (c : MarkdownConverterApp) :
    (MarkdownConverterApp.handle_conversion_finished c).markdownText = c.markdownText ∧
    (MarkdownConverterApp.handle_conversion_finished c).notifications = c.notifications ∧
    (MarkdownConverterApp.handle_conversion_finished c).is_processing = c.is_processing ∧
    (MarkdownConverterApp.handle_conversion_finished c).statusText = c.statusText := by
  unfold MarkdownConverterApp.handle_conversion_finished
  by_cases h1 : c.progress_dialog = true <;> by_cases h2 : c.conversion_worker.isSome = true <;>
    by_cases h3 : c.conversion_thread.isSome = true <;> simp [h1, h2, h3]

/-- `_finalize_conversion_ui` always clears the processing flag and re-enables
the open button and the drop target, and never touches the markdown text or
the notifications. -/
theorem finalize_fields (c : MarkdownConverterApp) :
    (MarkdownConverterApp.finalize_conversion_ui c).is_processing = false ∧
    (MarkdownConverterApp.finalize_conversion_ui c).openEnabled = true ∧
    (MarkdownConverterApp.finalize_conversion_ui c).dropEnabled = true ∧
    (MarkdownConverterApp.finalize_conversion_ui c).markdownText = c.markdownText ∧
    (MarkdownConverterApp.finalize_conversion_ui c).notifications = c.notifications := by
  unfold MarkdownConverterApp.finalize_conversion_ui MarkdownConverterApp.set_ui_enabled
    MarkdownConverterApp.update_action_buttons_state
  by_cases h1 : (trimStr c.markdownText == "") = true <;>
    by_cases h2 : statusShowsProcessing c.statusText = true <;>
      simp [h1, h2, reset_status_none_eq]

/-- C1: for every terminal outcome of a conversion task — success, any error
kind, or cancelled — after the terminal handler, `handle_conversion_finished`
and the deferred `_finalize_conversion_ui` run, `is_processing` is `False`
and the interaction surface (open button, drop target) is re-enabled: the
controller is never left stuck in the busy state. -/
theorem terminal_outcome_returns_controller_to_ready (c : MarkdownConverterApp)
    (sig : Signal) :
    (MarkdownConverterApp.finalize_conversion_ui
        (MarkdownConverterApp.handle_conversion_finished
          (MarkdownConverterApp.applyTerminal c sig))).is_processing = false ∧
    (MarkdownConverterApp.finalize_conversion_ui
        (MarkdownConverterApp.handle_conversion_finished
          (MarkdownConverterApp.applyTerminal c sig))).openEnabled = true ∧
    (MarkdownConverterApp.finalize_conversion_ui
        (MarkdownConverterApp.handle_conversion_finished
          (MarkdownConverterApp.applyTerminal c sig))).dropEnabled = true :=
  ⟨(finalize_fields _).1, (finalize_fields _).2.1, (finalize_fields _).2.2.1⟩

/-- C3: a terminal signal (completion or error) whose file no longer matches
the tracked `last_processed_file`, or which arrives while no conversion is
being processed, is ignored by both handlers: status text, markdown output,
`is_processing` and `last_processed_file` are all unchanged. -/
theorem stale_terminal_signal_leaves_state_unchanged (c : MarkdownConverterApp)
    (docs : List Document) (kind msg p : String)
    (h : some p ≠ c.last_processed_file ∨ c.is_processing = false) :
    ((MarkdownConverterApp.handle_conversion_complete c docs p).statusText = c.statusText ∧
     (MarkdownConverterApp.handle_conversion_complete c docs p).markdownText = c.markdownText ∧
     (MarkdownConverterApp.handle_conversion_complete c docs p).is_processing
        = c.is_processing ∧
     (MarkdownConverterApp.handle_conversion_complete c docs p).last_processed_file
        = c.last_processed_file) ∧
    ((MarkdownConverterApp.handle_conversion_error c kind msg p).statusText = c.statusText ∧
     (MarkdownConverterApp.handle_conversion_error c kind msg p).markdownText
        = c.markdownText ∧
     (MarkdownConverterApp.handle_conversion_error c kind msg p).is_processing
        = c.is_processing ∧
     (MarkdownConverterApp.handle_conversion_error c kind msg p).last_processed_file
        = c.last_processed_file) := by
  have hb : ((some p != c.last_processed_file) || !c.is_processing) = true := by
    rcases h with h | h
    · simp [h]
    · simp [h]
  have hcomp : MarkdownConverterApp.handle_conversion_complete c docs p
      = MarkdownConverterApp.quitConversionThread c := by
    unfold MarkdownConverterApp.handle_conversion_complete
    rw [if_pos hb]
  have herr : MarkdownConverterApp.handle_conversion_error c kind msg p
      = MarkdownConverterApp.quitConversionThread c := by
    unfold MarkdownConverterApp.handle_conversion_error
    rw [if_pos hb]
  rw [hcomp, herr, quitConversionThread_eq]
  exact ⟨⟨rfl, rfl, rfl, rfl⟩, rfl, rfl, rfl, rfl⟩

/-- A controller state right after successful initialization: Ready, no
output, interaction surface enabled. -/
def readyApp : MarkdownConverterApp where
  DoclingLoaderClass := true
  is_processing := false
  last_processed_file := none
  original_status_text := "Ready. Select a file or drag it here."
  ready_status_text := "Ready. Select a file or drag it here."
  statusText := "Ready. Select a file or drag it here."
  markdownText := ""
  placeholderText := "Converted Markdown will appear here..."
  openEnabled := true
  dropEnabled := true
  copyEnabled := false
  saveEnabled := false
  progress_dialog := false
  conversion_worker := none
  conversion_thread := none
  tasksCreated := 0
  notifications := []
  windowEnabled := true
  centralEnabled := true
  quitRequests := 0
  isWindows := false
  loginName := "user"

/-- A file system on which every path exists and is readable. -/
def okFS : FS where
  pathExists := fun _ => true
  readable := fun _ => true

/-- A file system on which no path exists. -/
def noFS : FS where
  pathExists := fun _ => false
  readable := fun _ => false

/-- The controller state while converting "report.pdf". -/
def busyApp : MarkdownConverterApp :=
  MarkdownConverterApp.process_file readyApp okFS "report.pdf"

/-- C3 witness: a stale completion and a stale error signal, delivered when
no conversion is in flight, change nothing. -/
theorem stale_terminal_signal_leaves_state_unchanged_witness :
    ((MarkdownConverterApp.handle_conversion_complete readyApp [⟨some "x"⟩]
        "old.pdf").statusText = readyApp.statusText ∧
     (MarkdownConverterApp.handle_conversion_complete readyApp [⟨some "x"⟩]
        "old.pdf").markdownText = readyApp.markdownText ∧
     (MarkdownConverterApp.handle_conversion_complete readyApp [⟨some "x"⟩]
        "old.pdf").is_processing = readyApp.is_processing ∧
     (MarkdownConverterApp.handle_conversion_complete readyApp [⟨some "x"⟩]
        "old.pdf").last_processed_file = readyApp.last_processed_file) ∧
    ((MarkdownConverterApp.handle_conversion_error readyApp "OSError" "m"
        "old.pdf").statusText = readyApp.statusText ∧
     (MarkdownConverterApp.handle_conversion_error readyApp "OSError" "m"
        "old.pdf").markdownText = readyApp.markdownText ∧
     (MarkdownConverterApp.handle_conversion_error readyApp "OSError" "m"
        "old.pdf").is_processing = readyApp.is_processing ∧
     (MarkdownConverterApp.handle_conversion_error readyApp "OSError" "m"
        "old.pdf").last_processed_file = readyApp.last_processed_file) :=
  stale_terminal_signal_leaves_state_unchanged readyApp [⟨some "x"⟩] "OSError" "m"
    "old.pdf" (Or.inr rfl)

/-- C6: a conversion request submitted while the controller is already
processing is rejected outright with the please-wait notification: the
resulting state is the old state with exactly that one notification appended —
no task is created, nothing is queued, and the in-flight request (tracked
file, worker, thread) is untouched. -/
theorem busy_request_rejected (c : MarkdownConverterApp) (fs : FS) (p : String)
    (hinit : c.DoclingLoaderClass = true) (hbusy : c.is_processing = true)
    (hw : c.windowEnabled = true) (hc : c.centralEnabled = true) :
    MarkdownConverterApp.process_file c fs p =
      { c with notifications :=
          c.notifications ++ ["Please wait for the current conversion to complete."] } := by
  unfold MarkdownConverterApp.process_file
  rw [if_neg (by simp [hinit]), if_pos hbusy,
    show_error_enabled_eq c "Please wait for the current conversion to complete." hw hc]

/-- C6 witness: a second request while converting "report.pdf" is rejected
with the please-wait notification and changes nothing else. -/
theorem busy_request_rejected_witness :
    MarkdownConverterApp.process_file busyApp okFS "b.pdf" =
      { busyApp with notifications :=
          busyApp.notifications ++ ["Please wait for the current conversion to complete."] } :=
  busy_request_rejected busyApp okFS "b.pdf" rfl rfl rfl rfl

/-- C7: a request for a path that does not exist, or exists but is not
readable, is resolved synchronously: an error notification is surfaced, no
worker or thread is created (so the FileNotFound / PermissionDenied kinds
never enter the task error channel), and the controller stays Ready
(`is_processing` remains `False`). -/
theorem preflight_failure_rejected_synchronously (c : MarkdownConverterApp) (fs : FS)
    (p : String) (hinit : c.DoclingLoaderClass = true) (hready : c.is_processing = false)
    (hw : c.windowEnabled = true) (hc : c.centralEnabled = true)
    (hbad : fs.pathExists p = false ∨ (fs.pathExists p = true ∧ fs.readable p = false)) :
    (MarkdownConverterApp.process_file c fs p).tasksCreated = c.tasksCreated ∧
    (MarkdownConverterApp.process_file c fs p).conversion_worker = c.conversion_worker ∧
    (MarkdownConverterApp.process_file c fs p).conversion_thread = c.conversion_thread ∧
    (MarkdownConverterApp.process_file c fs p).is_processing = false ∧
    (MarkdownConverterApp.process_file c fs p).notifications.length
      = c.notifications.length + 1 := by
  rcases hbad with hb | ⟨he, hnr⟩
  · have h1 : MarkdownConverterApp.process_file c fs p
        = MarkdownConverterApp.reset_status
            (MarkdownConverterApp.show_error c ("File not found: " ++ p))
            (some "File access error.") := by
      unfold MarkdownConverterApp.process_file
      rw [hinit, hready, hb]
      rfl
    rw [h1, show_error_enabled_eq c _ hw hc, reset_status_some_eq]
    exact ⟨rfl, rfl, rfl, hready, by simp⟩
  · have h1 : MarkdownConverterApp.process_file c fs p
        = MarkdownConverterApp.reset_status
            (MarkdownConverterApp.show_error c ("Permission denied: Cannot read file\n" ++ p))
            (some "File permission error.") := by
      unfold MarkdownConverterApp.process_file
      rw [hinit, hready, he, hnr]
      rfl
    rw [h1, show_error_enabled_eq c _ hw hc, reset_status_some_eq]
    exact ⟨rfl, rfl, rfl, hready, by simp⟩

/-- C7 witness: submitting the missing path "missing.pdf" leaves the
controller Ready, spawns nothing, and surfaces one notification. -/
theorem preflight_failure_rejected_synchronously_witness :
    (MarkdownConverterApp.process_file readyApp noFS "missing.pdf").tasksCreated
        = readyApp.tasksCreated ∧
    (MarkdownConverterApp.process_file readyApp noFS "missing.pdf").conversion_worker
        = readyApp.conversion_worker ∧
    (MarkdownConverterApp.process_file readyApp noFS "missing.pdf").conversion_thread
        = readyApp.conversion_thread ∧
    (MarkdownConverterApp.process_file readyApp noFS "missing.pdf").is_processing = false ∧
    (MarkdownConverterApp.process_file readyApp noFS "missing.pdf").notifications.length
        = readyApp.notifications.length + 1 :=
  preflight_failure_rejected_synchronously readyApp noFS "missing.pdf" rfl rfl rfl rfl
    (Or.inl rfl)

/-- Entering `process_file` in the Ready state with an accessible path runs
the task-starting tail. -/
theorem process_file_valid_eq (c : MarkdownConverterApp) (fs : FS) (p : String)
    (hinit : c.DoclingLoaderClass = true) (hready : c.is_processing = false)
    (hex : fs.pathExists p = true) (hrd : fs.readable p = true) :
    MarkdownConverterApp.process_file c fs p = MarkdownConverterApp.startTask c p := by
  unfold MarkdownConverterApp.process_file
  rw [if_neg (by simp [hinit]), if_neg (by simp [hready]), if_neg (by simp [hex]),
    if_neg (by simp [hrd])]

/-- A non-stale completion whose documents yield no non-empty page content is
handled as a failure: one notification is surfaced and the markdown text is
left untouched. -/
theorem handle_complete_empty_fields (c : MarkdownConverterApp) (docs : List Document)
    (p : String) (hp : c.last_processed_file = some p) (hproc : c.is_processing = true)
    (hw : c.windowEnabled = true) (hc : c.centralEnabled = true)
    (hempty : pageContents docs = []) :
    (MarkdownConverterApp.handle_conversion_complete c docs p).markdownText
        = c.markdownText ∧
    (MarkdownConverterApp.handle_conversion_complete c docs p).notifications.length
        = c.notifications.length + 1 ∧
    (MarkdownConverterApp.handle_conversion_complete c docs p).is_processing
        = c.is_processing := by
  have hb : ¬(((some p != c.last_processed_file) || !c.is_processing) = true) := by
    simp [hp, hproc]
  cases docs with
  | nil =>
    have h2 : MarkdownConverterApp.handle_conversion_complete c [] p
        = MarkdownConverterApp.quitConversionThread
            (MarkdownConverterApp.reset_status
              (MarkdownConverterApp.show_error
                { c with placeholderText :=
                    "No processable documents found in \x27" ++ basename p ++ "\x27." }
                ("Docling returned no processable documents for \x27" ++ basename p ++ "\x27."))
              (some "Conversion failed: No documents.")) := by
      unfold MarkdownConverterApp.handle_conversion_complete
      rw [if_neg hb]
      rfl
    rw [h2, show_error_enabled_eq
        { c with placeholderText :=
            "No processable documents found in \x27" ++ basename p ++ "\x27." }
        ("Docling returned no processable documents for \x27" ++ basename p ++ "\x27.")
        hw hc,
      reset_status_some_eq, quitConversionThread_eq]
    exact ⟨rfl, by simp, rfl⟩
  | cons d ds =>
    have h2 : MarkdownConverterApp.handle_conversion_complete c (d :: ds) p
        = MarkdownConverterApp.quitConversionThread
            (MarkdownConverterApp.reset_status
              (MarkdownConverterApp.show_error
                { c with placeholderText :=
                    "Conversion of \x27" ++ basename p ++ "\x27 resulted in empty content." }
                ("Conversion resulted in empty content for \x27" ++ basename p ++ "\x27."))
              (some "Conversion failed: Empty result.")) := by
      unfold MarkdownConverterApp.handle_conversion_complete
      rw [if_neg hb, hempty]
      rfl
    rw [h2, show_error_enabled_eq
        { c with placeholderText :=
            "Conversion of \x27" ++ basename p ++ "\x27 resulted in empty content." }
        ("Conversion resulted in empty content for \x27" ++ basename p ++ "\x27.")
        hw hc,
      reset_status_some_eq, quitConversionThread_eq]
    exact ⟨rfl, by simp, rfl⟩

/-- C8: a conversion whose external call returns zero text blocks, or blocks
that are all empty, is handled as the empty-result failure: a user-visible
error notification is surfaced (exactly one warning box, not a crash), the
markdown output stays cleared, and after the deferred finalization the
controller is back to Ready with the interaction surface enabled. -/
theorem empty_result_is_failure_and_returns_ready (c : MarkdownConverterApp) (fs : FS)
    (p : String) (docs : List Document)
    (hinit : c.DoclingLoaderClass = true) (hready : c.is_processing = false)
    (hw : c.windowEnabled = true) (hc : c.centralEnabled = true)
    (hex : fs.pathExists p = true) (hrd : fs.readable p = true)
    (hempty : pageContents docs = []) :
    (MarkdownConverterApp.handle_conversion_complete
        (MarkdownConverterApp.process_file c fs p) docs p).notifications.length
      = c.notifications.length + 1 ∧
    (MarkdownConverterApp.finalize_conversion_ui
        (MarkdownConverterApp.handle_conversion_finished
          (MarkdownConverterApp.handle_conversion_complete
            (MarkdownConverterApp.process_file c fs p) docs p))).markdownText = "" ∧
    (MarkdownConverterApp.finalize_conversion_ui
        (MarkdownConverterApp.handle_conversion_finished
          (MarkdownConverterApp.handle_conversion_complete
            (MarkdownConverterApp.process_file c fs p) docs p))).is_processing = false ∧
    (MarkdownConverterApp.finalize_conversion_ui
        (MarkdownConverterApp.handle_conversion_finished
          (MarkdownConverterApp.handle_conversion_complete
            (MarkdownConverterApp.process_file c fs p) docs p))).openEnabled = true := by
  rw [process_file_valid_eq c fs p hinit hready hex hrd]
  obtain ⟨s1, s2, s3, s4, s5, s6, -⟩ := startTask_fields c p
  obtain ⟨e1, e2, e3⟩ := handle_complete_empty_fields (MarkdownConverterApp.startTask c p)
    docs p s2 s1 (s4.trans hw) (s5.trans hc) hempty
  refine ⟨?_, ?_, (finalize_fields _).1, (finalize_fields _).2.1⟩
  · rw [e2, s6]
  · rw [(finalize_fields _).2.2.2.1, (finished_preserves _).1, e1, s3]

/-- C8 witness: converting a readable file that yields one document with
empty content surfaces one notification, clears the output and returns the
controller to Ready. -/
theorem empty_result_is_failure_and_returns_ready_witness :
    (MarkdownConverterApp.handle_conversion_complete
        (MarkdownConverterApp.process_file readyApp okFS "report.pdf")
        [⟨some ""⟩] "report.pdf").notifications.length
      = readyApp.notifications.length + 1 ∧
    (MarkdownConverterApp.finalize_conversion_ui
        (MarkdownConverterApp.handle_conversion_finished
          (MarkdownConverterApp.handle_conversion_complete
            (MarkdownConverterApp.process_file readyApp okFS "report.pdf")
            [⟨some ""⟩] "report.pdf"))).markdownText = "" ∧
    (MarkdownConverterApp.finalize_conversion_ui
        (MarkdownConverterApp.handle_conversion_finished
          (MarkdownConverterApp.handle_conversion_complete
            (MarkdownConverterApp.process_file readyApp okFS "report.pdf")
            [⟨some ""⟩] "report.pdf"))).is_processing = false ∧
    (MarkdownConverterApp.finalize_conversion_ui
        (MarkdownConverterApp.handle_conversion_finished
          (MarkdownConverterApp.handle_conversion_complete
            (MarkdownConverterApp.process_file readyApp okFS "report.pdf")
            [⟨some ""⟩] "report.pdf"))).openEnabled = true :=
  empty_result_is_failure_and_returns_ready readyApp okFS "report.pdf" [⟨some ""⟩]
    rfl rfl rfl rfl rfl rfl rfl

/-- The content filter of `handle_conversion_complete`, on documents that all
carry the attribute, keeps exactly the non-empty contents in their original
order: empty blocks are dropped before joining. -/
theorem pageContents_map (blocks : List String) :
    pageContents (blocks.map (fun s => ⟨some s⟩))
      = blocks.filter (fun s => s != "") := by
  induction blocks with
  | nil => rfl
  | cons a t ih =>
    cases ha : (a != "") with
    | false =>
      have hstep : pageContents ((a :: t).map (fun s => ⟨some s⟩))
          = pageContents (t.map (fun s => ⟨some s⟩)) := by
        simp only [pageContents, List.map_cons, List.filterMap_cons]
        rw [ha]
        rfl
      rw [hstep, ih]
      simp [List.filter_cons, ha]
    | true =>
      have hstep : pageContents ((a :: t).map (fun s => ⟨some s⟩))
          = a :: pageContents (t.map (fun s => ⟨some s⟩)) := by
        simp only [pageContents, List.map_cons, List.filterMap_cons]
        rw [ha]
        rfl
      rw [hstep, ih]
      simp [List.filter_cons, ha]

/-- A non-stale completion whose filtered content list is non-empty displays
the blocks joined with the blank-line separator. -/
theorem handle_complete_success_markdown (c : MarkdownConverterApp)
    (docs : List Document) (p : String)
    (hp : c.last_processed_file = some p) (hproc : c.is_processing = true)
    (hdocs : docs ≠ []) (hne : pageContents docs ≠ []) :
    (MarkdownConverterApp.handle_conversion_complete c docs p).markdownText
      = String.intercalate "\n\n" (pageContents docs) := by
  have hb : ¬(((some p != c.last_processed_file) || !c.is_processing) = true) := by
    simp [hp, hproc]
  cases docs with
  | nil => exact absurd rfl hdocs
  | cons d ds =>
    have hps : ((pageContents (d :: ds)) != []) = true := by
      simpa using hne
    have h2 : MarkdownConverterApp.handle_conversion_complete c (d :: ds) p
        = MarkdownConverterApp.quitConversionThread
            (MarkdownConverterApp.set_status
              (MarkdownConverterApp.setMarkdownText c
                (String.intercalate "\n\n" (pageContents (d :: ds))))
              ("âœ… Successfully converted \x27" ++ basename p ++ "\x27!") true false false) := by
      unfold MarkdownConverterApp.handle_conversion_complete
      rw [if_neg hb]
      dsimp only
      rw [hps]
      rfl
    rw [h2, quitConversionThread_eq, set_status_eq]
    rfl

/-- C9 counterexample: the displayed Markdown is not always the full ordered
block sequence joined with "\n\n".  For a successful conversion of
"report.pdf" returning the ordered blocks "a", "", "b", the handler filters
the empty block out before joining, so the display is "a\n\nb", while the
claimed join of the full ordered sequence is "a\n\n\n\nb". -/
theorem empty_block_dropped_from_join :
    (MarkdownConverterApp.handle_conversion_complete busyApp
        [⟨some "a"⟩, ⟨some ""⟩, ⟨some "b"⟩] "report.pdf").markdownText = "a\n\nb" ∧
    String.intercalate "\n\n" ["a", "", "b"] = "a\n\n\n\nb" ∧
    ("a\n\nb" : String) ≠ "a\n\n\n\nb" := by
  refine ⟨?_, by decide, by decide⟩
  rw [handle_complete_success_markdown busyApp [⟨some "a"⟩, ⟨some ""⟩, ⟨some "b"⟩]
      "report.pdf" rfl rfl (by decide) (by decide)]
  decide

/-- C9 amended: for every successful conversion returning an ordered sequence
of text blocks of which at least one is non-empty, the final Markdown text
displayed equals the subsequence of non-empty blocks, in their original
order, joined with the blank-line separator "\n\n" — empty blocks are
filtered out before joining; when every block is non-empty this is exactly
the full ordered sequence joined with "\n\n". -/
theorem success_displays_joined_nonempty_blocks (c : MarkdownConverterApp)
    (blocks : List String) (p : String)
    (hp : c.last_processed_file = some p) (hproc : c.is_processing = true)
    (hne : blocks.filter (fun s => s != "") ≠ []) :
    (MarkdownConverterApp.handle_conversion_complete c
        (blocks.map (fun s => ⟨some s⟩)) p).markdownText
      = String.intercalate "\n\n" (blocks.filter (fun s => s != "")) := by
  have hpc := pageContents_map blocks
  have hblocks : blocks ≠ [] := by
    intro h
    rw [h] at hne
    exact hne rfl
  rw [handle_complete_success_markdown c (blocks.map (fun s => ⟨some s⟩)) p hp hproc
      (by simpa using hblocks) (by rw [hpc]; exact hne), hpc]

/-- C9 amended witness: converting a document with the blocks "alpha", "" and
"beta" while busy on "report.pdf" displays the two non-empty blocks joined,
"alpha\n\nbeta". -/
theorem success_displays_joined_nonempty_blocks_witness :
    (MarkdownConverterApp.handle_conversion_complete busyApp
        (["alpha", "", "beta"].map (fun s => ⟨some s⟩)) "report.pdf").markdownText
      = String.intercalate "\n\n" (["alpha", "", "beta"].filter (fun s => s != "")) :=
  success_displays_joined_nonempty_blocks busyApp ["alpha", "", "beta"] "report.pdf"
    rfl rfl (by decide)
